import Mathlib

/-!
Shallow embedding of the mcp-google-docs repository core:
the configuration resolver (`src/config.py`), the folder alias registry
(`Config.get_folder_id`), the session-state / tool-dispatch logic of
`src/main.py` (current-spreadsheet pointer, creation tools, sheet tools,
the slide-content transform of `add_slide_to_presentation`), and the
delegate wrappers of `src/google_drive.py` (`GoogleDrive.copy_file`).

Python values that flow through dicts are modelled by `PyVal`; Python
exceptions by `PyResult` (`ok` / `exc` carrying the exception text).
Machine-level details that the claims do not touch (logging, the actual
network calls) are elided; the delegate outcome of each wrapped API call
is passed in as an explicit argument.
-/

/-- Model of a Python value as it appears in the dicts this code base
passes around: strings, ints, floats (kept as their JSON lexeme, since
no arithmetic is ever performed on them), booleans, None, lists and
dicts (association lists preserving insertion order). -/
inductive PyVal where
  | vstr (s : String)
  | vint (n : Int)
  | vfloat (lexeme : String)
  | vbool (b : Bool)
  | vnull
  | vlist (xs : List PyVal)
  | vdict (xs : List (String × PyVal))

/-- Outcome of a Python call: a normal return or a raised exception
(carrying the exception text `str(e)`). -/
inductive PyResult (α : Type) where
  | ok (v : α)
  | exc (msg : String)

/-- Association-list lookup by string key (Python `d[k]` / `d.get(k)` on
dicts whose keys are unique). -/
def lookupA {β : Type} (k : String) : List (String × β) → Option β
  | [] => none
  | p :: rest => if p.1 = k then some p.2 else lookupA k rest

/-- Python dict assignment `m[k] = v`: if the key is present its value is
replaced in place (insertion position kept), otherwise the pair is
appended. -/
def insertAList {β : Type} (m : List (String × β)) (k : String) (v : β) :
    List (String × β) :=
  if (lookupA k m).isSome then
    m.map (fun p => if p.1 = k then (k, v) else p)
  else
    m ++ [(k, v)]

/-- `d.get(k)` on a Python dict value; returns `none` (Python `None`)
when the key is absent or the value is not a dict. -/
def dictGet (v : PyVal) (k : String) : Option PyVal :=
  match v with
  | .vdict m => lookupA k m
  | _ => none

/-- Whether a float lexeme denotes the value zero: it has at least one
digit in its mantissa (so `Infinity` / `NaN` are excluded) and every
mantissa digit is `0`. -/
def floatLexemeIsZero (lex : String) : Bool :=
  let mantissa := lex.toList.takeWhile (fun c => c ≠ 'e' ∧ c ≠ 'E')
  mantissa.any Char.isDigit && mantissa.all (fun c => !c.isDigit || c = '0')

/-- Python truthiness of a `PyVal` (`bool(v)`). -/
def pyTruthy : PyVal → Bool
  | .vstr s => s ≠ ""
  | .vint n => n ≠ 0
  | .vfloat lex => !floatLexemeIsZero lex
  | .vbool b => b
  | .vnull => false
  | .vlist xs => !xs.isEmpty
  | .vdict xs => !xs.isEmpty

/-- Truthiness of an optional `PyVal` (Python `None` is falsy). -/
def optTruthy : Option PyVal → Bool
  | none => false
  | some v => pyTruthy v

/-- Python `a or b` on two optional values (`d.get` results). -/
def pyOr (a b : Option PyVal) : Option PyVal :=
  if optTruthy a then a else b

/-- Python type name of a value (as it appears in an AttributeError). -/
def pyTypeName : PyVal → String
  | .vstr _ => "str"
  | .vint _ => "int"
  | .vfloat _ => "float"
  | .vbool _ => "bool"
  | .vnull => "NoneType"
  | .vlist _ => "list"
  | .vdict _ => "dict"

/-! ## Configuration resolver (`src/config.py`) -/

/-- The five environment variables read by `Config.from_env`
(`os.getenv` yields `none` when a variable is unset). -/
structure Env where
  clientSecretPath : Option String
  tokenPath : Option String
  foldersVar : Option String
  defaultFolderVar : Option String
  folderIdVar : Option String

/-- The `Config` dataclass of `src/config.py`. `folders` is an
insertion-ordered mapping with unique keys. -/
structure Config where
  client_secret_path : String
  token_path : String
  folder_id : String
  folders : List (String × String)
  default_folder : String

/-- Truthiness of an `os.getenv` result (Python `if not x` on an
optional string: unset or empty is falsy). -/
def optStrTruthy : Option String → Bool
  | none => false
  | some s => s ≠ ""

/-- Split a character list at every occurrence of `sep`
(Python `s.split(sep)` for a one-character separator). -/
def splitChar (sep : Char) : List Char → List (List Char)
  | [] => [[]]
  | c :: rest =>
    match splitChar sep rest with
    | [] => if c = sep then [[], []] else [[c]]
    | h :: t => if c = sep then [] :: h :: t else (c :: h) :: t

/-- Split a character list at the first occurrence of `sep`
(Python `s.split(sep, 1)` when the separator occurs); `none` when
`sep` does not occur. -/
def splitFirst (sep : Char) : List Char → Option (List Char × List Char)
  | [] => none
  | c :: rest =>
    if c = sep then some ([], rest)
    else
      match splitFirst sep rest with
      | some (a, b) => some (c :: a, b)
      | none => none

/-- Python `s.strip()`: drop whitespace from both ends. -/
def trimChars (l : List Char) : List Char :=
  ((l.dropWhile Char.isWhitespace).reverse.dropWhile Char.isWhitespace).reverse

/-- One iteration of the folder-parsing loop of `Config.from_env`
(`src/config.py` lines 35-39): trim the entry; if it contains `:`,
split at the first `:`, trim both halves and assign into the mapping;
otherwise leave the mapping unchanged. -/
def foldersStep (acc : List (String × String)) (item : List Char) :
    List (String × String) :=
  let item := trimChars item
  match splitFirst ':' item with
  | some (a, f) => insertAList acc (String.mk (trimChars a)) (String.mk (trimChars f))
  | none => acc

/-- The folder-parsing loop of `Config.from_env`: split the raw variable
on `,` and fold every entry through `foldersStep`. -/
def parseFolders (s : String) : List (String × String) :=
  (splitChar ',' s.toList).foldl foldersStep []

/-- `os.path.join home name` as used for the token-path default
(POSIX behaviour on the inputs that occur here). -/
def osPathJoin (a b : String) : String :=
  match a.toList.getLast? with
  | some '/' => a ++ b
  | _ => a ++ "/" ++ b

/-- The folders mapping read by `Config.from_env`
(`src/config.py` lines 32-39): `os.getenv('MCPGD_FOLDERS', '')`, the
parsing loop run only when the raw value is truthy. -/
def parsedFoldersOf (env : Env) : List (String × String) :=
  let folders_str := env.foldersVar.getD ""
  if folders_str = "" then [] else parseFolders folders_str

/-- The legacy/new-scheme reconciliation of `Config.from_env`
(`src/config.py` lines 43-58), as a pure function of the parsed
`folders`, the legacy `folder_id` and the `default_folder` alias;
yields the updated `(folders, folder_id, default_folder)`. The final
`match` arm is unreachable (that branch requires nonempty `folders`). -/
def normalizeFolders (folders : List (String × String))
    (folder_id default_folder : String) :
    List (String × String) × String × String :=
  if folders = [] ∧ folder_id ≠ "" then
    ([("default", folder_id)], folder_id, "default")
  else if folders ≠ [] ∧ folder_id = "" then
    if default_folder ≠ "" ∧ (lookupA default_folder folders).isSome then
      (folders, (lookupA default_folder folders).getD "", default_folder)
    else
      match folders.head? with
      | some first =>
        (folders, first.2, if default_folder = "" then first.1 else default_folder)
      | none => (folders, folder_id, default_folder)
  else (folders, folder_id, default_folder)

/-- `Config.from_env` (`src/config.py` lines 18-81). `home` stands for
`os.path.expanduser` of the home directory; the `load_dotenv` call and
the informational log record are elided (the log is not used for
control flow). Errors model the `ValueError`s raised (the spec calls
them ConfigError). -/
def Config.from_env (env : Env) (home : String) : Except String Config :=
  if optStrTruthy env.clientSecretPath = false then
    .error "MCPGD_CLIENT_SECRET_PATH environment variable is required"
  else
    let client_secret_path := env.clientSecretPath.getD ""
    let token_path :=
      if optStrTruthy env.tokenPath = false then
        osPathJoin home ".mcp_google_spreadsheet.json"
      else env.tokenPath.getD ""
    let n := normalizeFolders (parsedFoldersOf env) (env.folderIdVar.getD "")
      (env.defaultFolderVar.getD "")
    if n.2.1 = "" ∧ n.1 = [] then
      .error "MCPGD_FOLDERS or MCPGD_FOLDER_ID environment variable is required"
    else
      .ok { client_secret_path := client_secret_path, token_path := token_path,
            folder_id := n.2.1, folders := n.1,
            default_folder := n.2.2 }

/-- `Config.get_folder_id` (`src/config.py` lines 83-90): a falsy
argument (None or empty) yields the default `folder_id`; a known alias
yields its mapped ID; anything else is returned unchanged. -/
def Config.get_folder_id (cfg : Config) (folder : Option String) : String :=
  match folder with
  | none => cfg.folder_id
  | some f =>
    if f = "" then cfg.folder_id
    else
      match lookupA f cfg.folders with
      | some fid => fid
      | none => f

/-- `Config.get_folder_name` (`src/config.py` lines 92-97): first alias
mapped to the given folder ID, empty string when none matches. -/
def Config.get_folder_name (cfg : Config) (folder_id : String) : String :=
  match cfg.folders.find? (fun p => p.2 = folder_id) with
  | some p => p.1
  | none => ""

/-! ## Delegate wrappers (`src/google_drive.py`) -/

/-- `GoogleDrive.copy_file` (`src/google_drive.py` lines 56-68): the
delegate outcome `o` is the result of `self.service.files().copy(...)
.execute()`. On success the raw result is returned; a raised exception
is caught and an empty dict is returned. The `copy_file` tool of
`src/main.py` (lines 48-51) returns this value unchanged. -/
def copy_file (o : PyResult PyVal) : PyResult PyVal :=
  match o with
  | .ok r => .ok r
  | .exc _ => .ok (.vdict [])

/-! ## Session state and sheet tools (`src/main.py`) -/

/-- The current-spreadsheet update performed by the `create_spreadsheet`
tool (`src/main.py` lines 58-78) on delegate result `result`: when the
result is truthy, `result.get('spreadsheetId') or result.get('id')` is
taken and, when itself truthy, stored as the new current id; in every
other case the stored id is kept. -/
def create_spreadsheet_current (result : PyVal) (current : Option PyVal) :
    Option PyVal :=
  if pyTruthy result then
    let spreadsheet_id := pyOr (dictGet result "spreadsheetId") (dictGet result "id")
    if optTruthy spreadsheet_id then spreadsheet_id else current
  else current

/-- The identical current-spreadsheet update of the
`create_spreadsheet_from_template` tool (`src/main.py` lines 80-98). -/
def create_spreadsheet_from_template_current (result : PyVal)
    (current : Option PyVal) : Option PyVal :=
  if pyTruthy result then
    let spreadsheet_id := pyOr (dictGet result "spreadsheetId") (dictGet result "id")
    if optTruthy spreadsheet_id then spreadsheet_id else current
  else current

/-- The identical current-spreadsheet update of the
`create_spreadsheet_from_existing` tool (`src/main.py` lines 100-118). -/
def create_spreadsheet_from_existing_current (result : PyVal)
    (current : Option PyVal) : Option PyVal :=
  if pyTruthy result then
    let spreadsheet_id := pyOr (dictGet result "spreadsheetId") (dictGet result "id")
    if optTruthy spreadsheet_id then spreadsheet_id else current
  else current

/-- The spreadsheet-id resolution of the `list_sheets` tool
(`src/main.py` lines 120-130): the value passed to
`sheets.list_sheets` is the argument when it is not None, else the
stored current id. -/
def list_sheets_target (spreadsheet_id : Option PyVal)
    (current : Option PyVal) : Option PyVal :=
  match spreadsheet_id with
  | none => current
  | some v => some v

/-- The identical spreadsheet-id resolution of the `rename_sheet` tool
(`src/main.py` lines 159-169). -/
def rename_sheet_target (spreadsheet_id : Option PyVal)
    (current : Option PyVal) : Option PyVal :=
  match spreadsheet_id with
  | none => current
  | some v => some v

/-! ## JSON parsing (Python `json.loads`)

`add_slide_to_presentation` feeds its content argument through
`json.loads`. The parser below models the `json` module's grammar:
optional whitespace around a single value; values are `null`, `true`,
`false`, `NaN`, `Infinity`, `-Infinity`, numbers
(`-?(0|[1-9][0-9]*)(\.[0-9]+)?([eE][+-]?[0-9]+)?`), strings with the
JSON escapes, arrays and objects. Numbers without fraction or exponent
parse to Python ints, the rest to floats (kept as their lexeme).
Recursion is fuelled; the top level supplies enough fuel since every
recursive call consumes at least one character. -/

/-- JSON whitespace skip (space, tab, newline, carriage return). -/
def skipWs (l : List Char) : List Char :=
  l.dropWhile (fun c => c = ' ' ∨ c = '\t' ∨ c = '\n' ∨ c = '\r')

/-- Value of a hexadecimal digit, if any. -/
def hexVal (c : Char) : Option Nat :=
  if '0' ≤ c ∧ c ≤ '9' then some (c.toNat - '0'.toNat)
  else if 'a' ≤ c ∧ c ≤ 'f' then some (c.toNat - 'a'.toNat + 10)
  else if 'A' ≤ c ∧ c ≤ 'F' then some (c.toNat - 'A'.toNat + 10)
  else none

/-- Parse exactly four hex digits into their value. -/
def parseHex4 : List Char → Option (Nat × List Char)
  | a :: b :: c :: d :: rest => do
    let va ← hexVal a
    let vb ← hexVal b
    let vc ← hexVal c
    let vd ← hexVal d
    pure (((va * 16 + vb) * 16 + vc) * 16 + vd, rest)
  | _ => none

/-- Parse the body of a JSON string (the opening quote already
consumed), handling the JSON escapes; unescaped control characters are
rejected as in the json module's strict mode. `\uXXXX` surrogate pairs
are combined; a code unit that is not a valid scalar value falls back
to `Char.ofNat`'s default (the json module would keep a lone
surrogate, which Lean strings cannot represent; no claim depends on
this corner). -/
def parseJStringBody : Nat → List Char → Option (List Char × List Char)
  | 0, _ => none
  | _, [] => none
  | fuel + 1, c :: rest =>
    if c = '"' then some ([], rest)
    else if c = '\\' then
      match rest with
      | [] => none
      | e :: rest2 =>
        let decoded : Option (Char × List Char) :=
          if e = '"' then some ('"', rest2)
          else if e = '\\' then some ('\\', rest2)
          else if e = '/' then some ('/', rest2)
          else if e = 'b' then some (Char.ofNat 8, rest2)
          else if e = 'f' then some (Char.ofNat 12, rest2)
          else if e = 'n' then some ('\n', rest2)
          else if e = 'r' then some ('\r', rest2)
          else if e = 't' then some ('\t', rest2)
          else if e = 'u' then
            match parseHex4 rest2 with
            | none => none
            | some (u1, rest3) =>
              if 0xD800 ≤ u1 ∧ u1 ≤ 0xDBFF then
                match rest3 with
                | '\\' :: 'u' :: rest4 =>
                  match parseHex4 rest4 with
                  | some (u2, rest5) =>
                    if 0xDC00 ≤ u2 ∧ u2 ≤ 0xDFFF then
                      some (Char.ofNat (0x10000 + (u1 - 0xD800) * 0x400 + (u2 - 0xDC00)), rest5)
                    else some (Char.ofNat u1, rest3)
                  | none => some (Char.ofNat u1, rest3)
                | _ => some (Char.ofNat u1, rest3)
              else some (Char.ofNat u1, rest3)
          else none
        match decoded with
        | none => none
        | some (ch, rest3) =>
          match parseJStringBody fuel rest3 with
          | some (s, rest4) => some (ch :: s, rest4)
          | none => none
    else if c.toNat < 0x20 then none
    else
      match parseJStringBody fuel rest with
      | some (s, rest2) => some (c :: s, rest2)
      | none => none

/-- Parse one or more decimal digits. -/
def parseDigits : List Char → Option (List Char × List Char)
  | c :: rest =>
    if c.isDigit then
      let tail := rest.takeWhile Char.isDigit
      some (c :: tail, rest.dropWhile Char.isDigit)
    else none
  | [] => none

/-- Parse a JSON number starting at a digit or `-` (the json module's
NUMBER_RE): integer part `0` or a nonzero-led digit run, optional
fraction (`.` plus at least one digit), optional exponent. Yields a
Python int when neither fraction nor exponent is present, otherwise a
float carrying the matched lexeme. -/
def parseJNumber (l : List Char) : Option (PyVal × List Char) :=
  let (sign, afterSign) :=
    match l with
    | '-' :: rest => (['-'], rest)
    | _ => ([], l)
  match afterSign with
  | c :: rest =>
    if ¬c.isDigit then none
    else
      let (intPart, afterInt) :=
        if c = '0' then (['0'], rest)
        else (c :: rest.takeWhile Char.isDigit, rest.dropWhile Char.isDigit)
      let (fracPart, afterFrac) :=
        match afterInt with
        | '.' :: fr =>
          match parseDigits fr with
          | some (ds, rest2) => ('.' :: ds, rest2)
          | none => ([], afterInt)
        | _ => ([], afterInt)
      let (expPart, afterExp) :=
        match afterFrac with
        | e :: er =>
          if e = 'e' ∨ e = 'E' then
            let (esign, er2) :=
              match er with
              | '+' :: t => (['+'], t)
              | '-' :: t => (['-'], t)
              | _ => ([], er)
            match parseDigits er2 with
            | some (ds, rest2) => (e :: (esign ++ ds), rest2)
            | none => ([], afterFrac)
          else ([], afterFrac)
        | [] => ([], afterFrac)
      if fracPart.isEmpty ∧ expPart.isEmpty then
        let mag : Nat := intPart.foldl (fun acc d => acc * 10 + (d.toNat - '0'.toNat)) 0
        let n : Int := if sign.isEmpty then (mag : Int) else -(mag : Int)
        some (.vint n, afterInt)
      else
        some (.vfloat (String.mk (sign ++ intPart ++ fracPart ++ expPart)), afterExp)
  | [] => none

mutual

/-- Parse one JSON value at the given position. -/
def parseJValue : Nat → List Char → Option (PyVal × List Char)
  | 0, _ => none
  | _, [] => none
  | fuel + 1, c :: rest =>
    if c = '"' then
      match parseJStringBody (rest.length + 1) rest with
      | some (s, rest2) => some (.vstr (String.mk s), rest2)
      | none => none
    else if c = '{' then
      match skipWs rest with
      | '}' :: rest2 => some (.vdict [], rest2)
      | l2 => parseJMembers fuel l2 []
    else if c = '[' then
      match skipWs rest with
      | ']' :: rest2 => some (.vlist [], rest2)
      | l2 => parseJItems fuel l2 []
    else if c = 't' then
      match rest with
      | 'r' :: 'u' :: 'e' :: rest2 => some (.vbool true, rest2)
      | _ => none
    else if c = 'f' then
      match rest with
      | 'a' :: 'l' :: 's' :: 'e' :: rest2 => some (.vbool false, rest2)
      | _ => none
    else if c = 'n' then
      match rest with
      | 'u' :: 'l' :: 'l' :: rest2 => some (.vnull, rest2)
      | _ => none
    else if c = 'N' then
      match rest with
      | 'a' :: 'N' :: rest2 => some (.vfloat "NaN", rest2)
      | _ => none
    else if c = 'I' then
      match rest with
      | 'n' :: 'f' :: 'i' :: 'n' :: 'i' :: 't' :: 'y' :: rest2 =>
        some (.vfloat "Infinity", rest2)
      | _ => none
    else if c = '-' then
      match rest with
      | 'I' :: 'n' :: 'f' :: 'i' :: 'n' :: 'i' :: 't' :: 'y' :: rest2 =>
        some (.vfloat "-Infinity", rest2)
      | _ => parseJNumber (c :: rest)
    else if c.isDigit then parseJNumber (c :: rest)
    else none

/-- Parse the members of a JSON object after `{` (first key position,
whitespace already skipped); duplicate keys follow dict assignment
(later values win). -/
def parseJMembers : Nat → List Char → List (String × PyVal) →
    Option (PyVal × List Char)
  | 0, _, _ => none
  | fuel + 1, l, acc =>
    match l with
    | '"' :: rest =>
      match parseJStringBody (rest.length + 1) rest with
      | none => none
      | some (k, rest2) =>
        match skipWs rest2 with
        | ':' :: rest3 =>
          match parseJValue fuel (skipWs rest3) with
          | none => none
          | some (v, rest4) =>
            let acc := insertAList acc (String.mk k) v
            match skipWs rest4 with
            | ',' :: rest5 => parseJMembers fuel (skipWs rest5) acc
            | '}' :: rest5 => some (.vdict acc, rest5)
            | _ => none
        | _ => none
    | _ => none

/-- Parse the items of a JSON array after `[` (first value position,
whitespace already skipped). -/
def parseJItems : Nat → List Char → List PyVal → Option (PyVal × List Char)
  | 0, _, _ => none
  | fuel + 1, l, acc =>
    match parseJValue fuel l with
    | none => none
    | some (v, rest) =>
      match skipWs rest with
      | ',' :: rest2 => parseJItems fuel (skipWs rest2) (acc ++ [v])
      | ']' :: rest2 => some (.vlist (acc ++ [v]), rest2)
      | _ => none

end

/-- `json.loads` on a string: skip surrounding whitespace, parse one
value, require the input to be exhausted; `none` models a raised
`json.JSONDecodeError`. -/
def jsonLoads (s : String) : Option PyVal :=
  let l := skipWs s.toList
  match parseJValue (l.length + 1) l with
  | some (v, rest) => if skipWs rest = [] then some v else none
  | none => none

/-! ## Slide-content transform (`add_slide_to_presentation`,
`src/main.py` lines 388-426) -/

/-- The backtick character (written via its code point, U+0060). -/
def backtick : Char := Char.ofNat 96

/-- Python `content.strip` with the one-character set holding the
backtick: remove every leading and trailing backtick. -/
def stripBackticks (s : String) : String :=
  String.mk (((s.toList.dropWhile (fun c => c = backtick)).reverse.dropWhile
    (fun c => c = backtick)).reverse)

/-- Python `content.replace` applied at the fixed arguments of
`src/main.py` line 407: every two-character sequence backslash-n is
replaced by a newline character, scanning left to right. -/
def convNewlines : List Char → List Char
  | [] => []
  | [c] => [c]
  | c1 :: c2 :: rest =>
    if c1 = '\\' ∧ c2 = 'n' then '\n' :: convNewlines rest
    else c1 :: convNewlines (c2 :: rest)

/-- String form of `convNewlines`. -/
def convertEscapedNewlines (s : String) : String :=
  String.mk (convNewlines s.toList)

/-- Whether a character list contains the two-character sequence
backslash-n (substring test for the replacement pattern). -/
def hasEscN : List Char → Bool
  | c1 :: c2 :: rest => (c1 = '\\' && c2 = 'n') || hasEscN (c2 :: rest)
  | _ => false

/-- Text of the AttributeError raised by calling `.replace` on a
non-string value (Python prints the type name and attribute in single
quotes; the quotes are elided here). -/
def attrNoReplace (t : String) : String :=
  t ++ " object has no attribute replace"

/-- The content-shaping block of `add_slide_to_presentation`
(`src/main.py` lines 392-407): strip leading/trailing backticks, try
`json.loads`; on success the parsed value replaces the content, on
`JSONDecodeError` the stripped string is kept. The subsequent
`content.replace` runs in either case: on a parsed string it converts
its backslash-n sequences, on any non-string parsed value it raises
AttributeError (returned as `.error`, caught by the function-level
`except`). -/
def shapeContent (content : String) : Except String String :=
  let stripped := stripBackticks content
  match jsonLoads stripped with
  | some (.vstr s) => .ok (convertEscapedNewlines s)
  | some v => .error (attrNoReplace (pyTypeName v))
  | none => .ok (convertEscapedNewlines stripped)

/-- The content that `slides.add_slide` receives from
`add_slide_to_presentation`, or `none` when the shaping block raises
before the delegate is invoked. -/
def deliveredContent (content : String) : Option String :=
  match shapeContent content with
  | .ok s => some s
  | .error _ => none

/-- The failure envelope literal of `src/main.py`. -/
def mkFailEnv (message : String) : PyVal :=
  .vdict [("success", .vbool false), ("message", .vstr message)]

/-- `add_slide_to_presentation` (`src/main.py` lines 388-426). `o` is
the outcome of the `slides.add_slide` delegate call on the shaped
content (unused when shaping raises first). Every path returns a dict;
exceptions are caught by the function-level `except` and reported as
`{success: False, message: Error: ...}`. -/
def add_slide_to_presentation (title content : String) (o : PyResult PyVal) :
    PyVal :=
  match shapeContent content with
  | .error m => mkFailEnv ("Error: " ++ m)
  | .ok _ =>
    match o with
    | .exc m => mkFailEnv ("Error: " ++ m)
    | .ok result =>
      if pyTruthy result && optTruthy (dictGet result "success") then
        .vdict [("success", .vbool true),
                ("message", .vstr ("Added slide: " ++ title)),
                ("slide_id", ((dictGet result "slide_id").getD .vnull)),
                ("dimensions", ((dictGet result "dimensions").getD .vnull))]
      else mkFailEnv "Failed to add slide"

/-- The `{success: false, message: <non-empty>}` envelope shape that the
spec asserts for every failing dispatch. -/
def failEnvelope (v : PyVal) : Prop :=
  dictGet v "success" = some (.vbool false) ∧
  ∃ m, dictGet v "message" = some (.vstr m) ∧ m ≠ ""

/-- The configuration produced by `Config.from_env` from a
legacy-only environment (client secret `cs.json`, token `/tok`,
`MCPGD_FOLDER_ID=F1`). -/
def legacyConfigExample : Config :=
  { client_secret_path := "cs.json", token_path := "/tok",
    folder_id := "F1", folders := [("default", "F1")],
    default_folder := "default" }

/-! ## Helper lemmas -/

theorem dropWhile_eq_self_of_none {p : Char → Bool} :
    ∀ {l : List Char}, (∀ c ∈ l, p c = false) → l.dropWhile p = l
  | [], _ => rfl
  | c :: rest, h => by
    simp only [List.dropWhile_cons, h c (by simp)]
    simp

theorem stripBackticks_eq_self {x : String} (hb : backtick ∉ x.toList) :
    stripBackticks x = x := by
  unfold stripBackticks
  have h1 : x.toList.dropWhile (fun c => c = backtick) = x.toList :=
    dropWhile_eq_self_of_none (fun c hc => by
      simp only [decide_eq_false_iff_not]
      exact fun h => hb (h ▸ hc))
  rw [h1]
  have h2 : x.toList.reverse.dropWhile (fun c => c = backtick) = x.toList.reverse :=
    dropWhile_eq_self_of_none (fun c hc => by
      simp only [decide_eq_false_iff_not]
      exact fun h => hb (h ▸ (List.mem_reverse.mp hc)))
  rw [h2, List.reverse_reverse]
  cases x
  rfl

theorem convNewlines_eq_self_aux :
    ∀ (n : Nat) (l : List Char), l.length ≤ n → hasEscN l = false →
      convNewlines l = l := by
  intro n
  induction n with
  | zero =>
    intro l hl _
    cases l with
    | nil => rfl
    | cons c rest => simp at hl
  | succ n ih =>
    intro l hl he
    match l with
    | [] => rfl
    | [c] => rfl
    | c1 :: c2 :: rest =>
      unfold hasEscN at he
      simp only [Bool.or_eq_false_iff] at he
      unfold convNewlines
      have hc : ¬(c1 = '\\' ∧ c2 = 'n') := by
        intro ⟨h1, h2⟩
        simp [h1, h2] at he
      rw [if_neg hc]
      have : convNewlines (c2 :: rest) = c2 :: rest := by
        apply ih
        · simpa using Nat.le_of_succ_le_succ hl
        · exact he.2
      rw [this]

theorem convNewlines_eq_self {l : List Char} (he : hasEscN l = false) :
    convNewlines l = l :=
  convNewlines_eq_self_aux l.length l (Nat.le_refl _) he

theorem convertEscapedNewlines_eq_self {x : String}
    (he : hasEscN x.toList = false) : convertEscapedNewlines x = x := by
  unfold convertEscapedNewlines
  rw [convNewlines_eq_self he]
  cases x
  rfl

theorem splitFirst_eq_none {sep : Char} :
    ∀ {l : List Char}, sep ∉ l → splitFirst sep l = none
  | [], _ => rfl
  | c :: rest, h => by
    unfold splitFirst
    rw [if_neg (by intro hc; exact h (hc ▸ List.mem_cons_self c rest))]
    rw [splitFirst_eq_none (fun hm => h (List.mem_cons_of_mem c hm))]

theorem mem_trimChars {c : Char} {l : List Char} (h : c ∈ trimChars l) :
    c ∈ l := by
  unfold trimChars at h
  rw [List.mem_reverse] at h
  have h2 := ((List.dropWhile_sublist _).mem h)
  rw [List.mem_reverse] at h2
  exact (List.dropWhile_sublist _).mem h2

theorem lookupA_append_of_none {β : Type} {k : String}
    {m : List (String × β)} (h : lookupA k m = none) (l : List (String × β)) :
    lookupA k (m ++ l) = lookupA k l := by
  induction m with
  | nil => rfl
  | cons p rest ih =>
    simp only [lookupA, List.cons_append] at h ⊢
    by_cases hp : p.1 = k
    · simp [hp] at h
    · rw [if_neg hp] at h ⊢
      exact ih h

theorem lookupA_insert_self {β : Type} (m : List (String × β)) (k : String)
    (v : β) : lookupA k (insertAList m k v) = some v := by
  unfold insertAList
  by_cases hs : (lookupA k m).isSome
  · rw [if_pos hs]
    induction m with
    | nil => simp [lookupA] at hs
    | cons p rest ih =>
      by_cases hp : p.1 = k
      · simp [List.map_cons, hp, lookupA]
      · simp only [List.map_cons, if_neg hp, lookupA]
        apply ih
        simp only [lookupA, if_neg hp] at hs
        exact hs
  · rw [if_neg hs]
    rw [lookupA_append_of_none (by
      cases h : lookupA k m with
      | none => rfl
      | some w => rw [h] at hs; simp at hs)]
    simp [lookupA]

/-- Appending to the nonempty literal prefix keeps a string nonempty. -/
theorem error_prefix_ne_empty (s : String) : "Error: " ++ s ≠ "" := by
  intro h
  have hl := congrArg String.length h
  rw [String.length_append] at hl
  have h7 : ("Error: " : String).length = 7 := rfl
  have h0 : ("" : String).length = 0 := rfl
  rw [h7, h0] at hl
  omega

/-! ## Claims -/

/-- C1 counterexample: the claim asserts that every tool maps a raised
delegate exception to `{success: false, message: <non-empty>}`. The
`copy_file` tool (`src/main.py` lines 48-51) returns
`GoogleDrive.copy_file`'s value unchanged, and that wrapper answers a
raised delegate exception with the empty dict `{}`
(`src/google_drive.py` line 68) — a falsy value with neither a
`success` nor a `message` key, so the promised envelope is absent. -/
theorem c1_counterexample :
    copy_file (.exc "network error") = .ok (.vdict []) ∧
    ¬ failEnvelope (.vdict []) := by
  refine ⟨rfl, ?_⟩
  intro ⟨hs, _⟩
  simp [dictGet, lookupA] at hs

/-- C1 amended: no exception escapes the dispatch boundary, but the
failure shape differs by tool family: the drive-backed `copy_file`
tool returns the empty dict on a raised delegate exception (no
`success`/`message` envelope), while `add_slide_to_presentation`
returns `{success: false, message: <non-empty>}` whenever its delegate
raises or returns a falsy result. -/
theorem c1_amended_dispatch :
    (∀ o : PyResult PyVal, ∃ v, copy_file o = .ok v) ∧
    (∀ m, copy_file (.exc m) = .ok (.vdict [])) ∧
    (∀ (t c : String) (o : PyResult PyVal),
      ((∃ m, o = .exc m) ∨ (∃ r, o = .ok r ∧ pyTruthy r = false)) →
      failEnvelope (add_slide_to_presentation t c o)) := by
  refine ⟨fun o => ?_, fun m => rfl, fun t c o h => ?_⟩
  · cases o with
    | ok v => exact ⟨v, rfl⟩
    | exc m => exact ⟨.vdict [], rfl⟩
  · unfold add_slide_to_presentation
    cases hs : shapeContent c with
    | error m =>
      exact ⟨rfl, "Error: " ++ m, rfl, error_prefix_ne_empty m⟩
    | ok s =>
      rcases h with ⟨m, hm⟩ | ⟨r, hr, hfalsy⟩
      · subst hm
        exact ⟨rfl, "Error: " ++ m, rfl, error_prefix_ne_empty m⟩
      · subst hr
        simp only [hfalsy, Bool.false_and, Bool.false_eq_true, if_false]
        exact ⟨rfl, "Failed to add slide", rfl, by decide⟩

/-- C1 witness: instantiating the amended dispatch property at a
raising delegate. -/
theorem c1_witness :
    copy_file (.exc "boom") = .ok (.vdict []) ∧
    failEnvelope (add_slide_to_presentation "T" "hello" (.exc "boom")) :=
  ⟨c1_amended_dispatch.2.1 "boom",
   c1_amended_dispatch.2.2 "T" "hello" (.exc "boom") (Or.inl ⟨"boom", rfl⟩)⟩

/-- C2 counterexample: the claim asserts that a supplied identifier is
used only when non-empty, the stored current identifier otherwise.
`list_sheets` (`src/main.py` lines 120-130) tests `is None`, so with
the empty string supplied and current id `X` the delegate receives the
empty string, not `X`. -/
theorem c2_counterexample :
    list_sheets_target (some (.vstr "")) (some (.vstr "X")) =
      some (.vstr "") ∧
    ¬ list_sheets_target (some (.vstr "")) (some (.vstr "X")) =
      some (.vstr "X") := by
  refine ⟨rfl, ?_⟩
  intro h
  simp only [list_sheets_target, Option.some.injEq, PyVal.vstr.injEq] at h
  exact absurd h (by decide)

/-- C2 amended: a supplied identifier — empty or not — is always used;
only an omitted (None) argument falls back to the stored current
identifier, which may itself be None. Holds for both cited sheet
tools. -/
theorem c2_amended_resolution (v : PyVal) (current : Option PyVal) :
    list_sheets_target (some v) current = some v ∧
    list_sheets_target none current = current ∧
    rename_sheet_target (some v) current = some v ∧
    rename_sheet_target none current = current :=
  ⟨rfl, rfl, rfl, rfl⟩

/-- C3: when a creation tool's delegate result is truthy and
`result.get('spreadsheetId') or result.get('id')` yields the non-empty
string `S`, all three creation tools store `S` as the current
spreadsheet id, and a following `list_sheets` call with no explicit id
delegates with `S`. -/
theorem c3_creation_sets_current (r : PyVal) (cur : Option PyVal)
    (s : String) (hr : pyTruthy r = true)
    (hS : pyOr (dictGet r "spreadsheetId") (dictGet r "id") = some (.vstr s))
    (hs : s ≠ "") :
    create_spreadsheet_current r cur = some (.vstr s) ∧
    create_spreadsheet_from_template_current r cur = some (.vstr s) ∧
    create_spreadsheet_from_existing_current r cur = some (.vstr s) ∧
    list_sheets_target none (create_spreadsheet_current r cur) =
      some (.vstr s) := by
  have hset :
      (if optTruthy (pyOr (dictGet r "spreadsheetId") (dictGet r "id")) then
        pyOr (dictGet r "spreadsheetId") (dictGet r "id") else cur) =
      some (.vstr s) := by
    rw [hS]
    simp [optTruthy, pyTruthy, hs]
  refine ⟨?_, ?_, ?_, ?_⟩ <;>
    simp only [create_spreadsheet_current,
      create_spreadsheet_from_template_current,
      create_spreadsheet_from_existing_current, list_sheets_target,
      hr, if_true, hset]

/-- C3 witness: a concrete successful creation result whose id is then
used by an id-less sheet call. -/
theorem c3_witness :
    create_spreadsheet_current (.vdict [("spreadsheetId", .vstr "S1")]) none =
      some (.vstr "S1") ∧
    list_sheets_target none
      (create_spreadsheet_current (.vdict [("spreadsheetId", .vstr "S1")]) none) =
      some (.vstr "S1") := by
  have h := c3_creation_sets_current (.vdict [("spreadsheetId", .vstr "S1")])
    none "S1" rfl rfl (by decide)
  exact ⟨h.1, h.2.2.2⟩

/-- C7 counterexample: the claim asserts identity on every input string
that is not a `folders` key, but `Config.get_folder_id`
(`src/config.py` lines 85-86) first tests Python truthiness, so the
empty string — not a key — yields the default `folder_id` instead of
itself. The configuration used is exactly what `Config.from_env`
produces from a legacy-only environment. -/
theorem c7_counterexample :
    Config.from_env ⟨some "cs.json", some "/tok", none, none, some "F1"⟩
      "/home/u" = .ok legacyConfigExample ∧
    lookupA "" legacyConfigExample.folders = none ∧
    Config.get_folder_id legacyConfigExample (some "") ≠ "" :=
  ⟨rfl, rfl, by decide⟩

/-- C7 amended: `Config.get_folder_id` is the identity on every
NON-EMPTY input string that is not a key of `folders`; the empty
string instead resolves to the default `folder_id`. -/
theorem c7_amended_identity (cfg : Config) (f : String) (hne : f ≠ "")
    (hmiss : lookupA f cfg.folders = none) :
    Config.get_folder_id cfg (some f) = f ∧
    Config.get_folder_id cfg (some "") = cfg.folder_id := by
  constructor
  · simp only [Config.get_folder_id]
    rw [if_neg hne, hmiss]
  · rfl

/-- C7 witness: the amended identity at a raw id unknown to the
registry. -/
theorem c7_witness :
    Config.get_folder_id legacyConfigExample (some "raw-folder-id") =
      "raw-folder-id" :=
  (c7_amended_identity legacyConfigExample "raw-folder-id" (by decide) rfl).1

/-- C10: when a creation tool's delegate result is falsy, or carries
neither a `spreadsheetId` nor an `id` key, the stored current
spreadsheet id is unchanged, for all three creation tools. -/
theorem c10_creation_frame (r : PyVal) (cur : Option PyVal)
    (h : pyTruthy r = false ∨
      (dictGet r "spreadsheetId" = none ∧ dictGet r "id" = none)) :
    create_spreadsheet_current r cur = cur ∧
    create_spreadsheet_from_template_current r cur = cur ∧
    create_spreadsheet_from_existing_current r cur = cur := by
  have hbody :
      (if pyTruthy r then
        (if optTruthy (pyOr (dictGet r "spreadsheetId") (dictGet r "id")) then
          pyOr (dictGet r "spreadsheetId") (dictGet r "id") else cur)
       else cur) = cur := by
    rcases h with hf | ⟨h1, h2⟩
    · rw [hf]
      simp
    · rw [h1, h2]
      by_cases ht : pyTruthy r <;> simp [ht, pyOr, optTruthy]
  exact ⟨hbody, hbody, hbody⟩

/-- C10 witness: a truthy creation result without either id key leaves
the stored id in place. -/
theorem c10_witness :
    create_spreadsheet_current (.vdict [("title", .vstr "t")])
      (some (.vstr "OLD")) = some (.vstr "OLD") :=
  (c10_creation_frame (.vdict [("title", .vstr "t")]) (some (.vstr "OLD"))
    (Or.inr ⟨rfl, rfl⟩)).1

/-- The final validity check of `Config.from_env` fails after
normalization exactly when it would have failed before: the
reconciliation step never turns a configured state into an
unconfigured one or vice versa. -/
theorem normalizeFolders_error_iff (f : List (String × String))
    (fid df : String) :
    ((normalizeFolders f fid df).2.1 = "" ∧ (normalizeFolders f fid df).1 = [])
      ↔ (f = [] ∧ fid = "") := by
  unfold normalizeFolders
  by_cases hf : f = []
  · by_cases hfid : fid = ""
    · simp [hf, hfid]
    · simp [hf, hfid]
  · by_cases hfid : fid = ""
    · cases f with
      | nil => exact absurd rfl hf
      | cons p rest =>
        by_cases hdf : df ≠ "" ∧ (lookupA df (p :: rest)).isSome
        · simp [hfid, hdf]
        · simp [hfid, hdf]
    · simp [hf, hfid]

/-- C4: `Config.from_env` fails (with the spec's ConfigError, raised as
ValueError in the source) exactly when the credential-path variable is
unset or empty, or the parsed folder mapping is empty while the legacy
folder-id variable is unset or empty; in every other case a
configuration is returned. -/
theorem c4_config_error_iff (env : Env) (home : String) :
    ((∃ m, Config.from_env env home = .error m) ↔
      (optStrTruthy env.clientSecretPath = false ∨
        (parsedFoldersOf env = [] ∧ env.folderIdVar.getD "" = ""))) ∧
    ((∃ c, Config.from_env env home = .ok c) ↔
      ¬(optStrTruthy env.clientSecretPath = false ∨
        (parsedFoldersOf env = [] ∧ env.folderIdVar.getD "" = ""))) := by
  have hn := normalizeFolders_error_iff (parsedFoldersOf env)
    (env.folderIdVar.getD "") (env.defaultFolderVar.getD "")
  by_cases hc : optStrTruthy env.clientSecretPath = false
  · simp [Config.from_env, hc]
  · by_cases he : parsedFoldersOf env = [] ∧ env.folderIdVar.getD "" = ""
    · simp [Config.from_env, hc, he.1, he.2, normalizeFolders]
    · have h2 : ¬((normalizeFolders (parsedFoldersOf env)
          (env.folderIdVar.getD "") (env.defaultFolderVar.getD "")).2.1 = "" ∧
          (normalizeFolders (parsedFoldersOf env) (env.folderIdVar.getD "")
            (env.defaultFolderVar.getD "")).1 = []) :=
        fun h => he (hn.mp h)
      simp [Config.from_env, hc, h2, he]

/-- The reconciliation step on a nonempty parsed mapping with the
legacy variable unset (the new-scheme-only branch of
`src/config.py` lines 49-58). -/
theorem normalizeFolders_new_only (a v : String)
    (rest : List (String × String)) (df : String) :
    normalizeFolders ((a, v) :: rest) "" df =
      if df ≠ "" ∧ (lookupA df ((a, v) :: rest)).isSome then
        ((a, v) :: rest, (lookupA df ((a, v) :: rest)).getD "", df)
      else ((a, v) :: rest, v, if df = "" then a else df) := by
  unfold normalizeFolders
  by_cases hdf : df ≠ "" ∧ (lookupA df ((a, v) :: rest)).isSome
  · simp [hdf]
  · simp [hdf]

/-- Shape of a successful `Config.from_env` run in terms of the
normalization step. -/
theorem from_env_ok (env : Env) (home : String)
    (hcred : optStrTruthy env.clientSecretPath = true)
    (hne : (normalizeFolders (parsedFoldersOf env) (env.folderIdVar.getD "")
      (env.defaultFolderVar.getD "")).1 ≠ []) :
    Config.from_env env home = .ok
      { client_secret_path := env.clientSecretPath.getD "",
        token_path := if optStrTruthy env.tokenPath = false then
            osPathJoin home ".mcp_google_spreadsheet.json"
          else env.tokenPath.getD "",
        folder_id := (normalizeFolders (parsedFoldersOf env)
          (env.folderIdVar.getD "") (env.defaultFolderVar.getD "")).2.1,
        folders := (normalizeFolders (parsedFoldersOf env)
          (env.folderIdVar.getD "") (env.defaultFolderVar.getD "")).1,
        default_folder := (normalizeFolders (parsedFoldersOf env)
          (env.folderIdVar.getD "") (env.defaultFolderVar.getD "")).2.2 } := by
  unfold Config.from_env
  rw [if_neg (by rw [hcred]; simp)]
  rw [if_neg (fun h => hne h.2)]

/-- C5: with only the new folders variable set (legacy id unset or
empty) and at least one parsed entry, the legacy `folder_id` is
backfilled from `folders[default_folder]` when that alias is set and
present, otherwise from the first parsed entry, whose alias also
becomes `default_folder` when the alias variable was empty; in
particular, entries `a:1,b:2` with no default-folder variable resolve
to `folder_id = 1` and `default_folder = a`. -/
theorem c5_new_scheme_backfill :
    (∀ (env : Env) (home a v : String) (rest : List (String × String)),
      optStrTruthy env.clientSecretPath = true →
      env.folderIdVar.getD "" = "" →
      parsedFoldersOf env = (a, v) :: rest →
      ∃ cfg, Config.from_env env home = .ok cfg ∧
        cfg.folders = (a, v) :: rest ∧
        (∀ w, env.defaultFolderVar.getD "" ≠ "" →
          lookupA (env.defaultFolderVar.getD "") ((a, v) :: rest) = some w →
          cfg.folder_id = w ∧
          cfg.default_folder = env.defaultFolderVar.getD "") ∧
        ((env.defaultFolderVar.getD "" = "" ∨
            lookupA (env.defaultFolderVar.getD "") ((a, v) :: rest) = none) →
          cfg.folder_id = v ∧
          cfg.default_folder =
            (if env.defaultFolderVar.getD "" = "" then a
             else env.defaultFolderVar.getD ""))) ∧
    (∃ cfg, Config.from_env ⟨some "cs.json", none, some "a:1,b:2", none, none⟩
        "/home/u" = .ok cfg ∧
      cfg.folder_id = "1" ∧ cfg.default_folder = "a") := by
  constructor
  · intro env home a v rest hcred hfid hp
    have hnf := normalizeFolders_new_only a v rest (env.defaultFolderVar.getD "")
    have hfold : normalizeFolders (parsedFoldersOf env)
        (env.folderIdVar.getD "") (env.defaultFolderVar.getD "") =
        normalizeFolders ((a, v) :: rest) "" (env.defaultFolderVar.getD "") := by
      rw [hp, hfid]
    have hne : (normalizeFolders (parsedFoldersOf env)
        (env.folderIdVar.getD "") (env.defaultFolderVar.getD "")).1 ≠ [] := by
      rw [hfold, hnf]
      by_cases hdf : env.defaultFolderVar.getD "" ≠ "" ∧
          (lookupA (env.defaultFolderVar.getD "") ((a, v) :: rest)).isSome
      · simp [hdf]
      · simp [hdf]
    refine ⟨_, from_env_ok env home hcred hne, ?_, ?_, ?_⟩
    · show (normalizeFolders (parsedFoldersOf env) (env.folderIdVar.getD "")
        (env.defaultFolderVar.getD "")).1 = (a, v) :: rest
      rw [hfold, hnf]
      by_cases hdf : env.defaultFolderVar.getD "" ≠ "" ∧
          (lookupA (env.defaultFolderVar.getD "") ((a, v) :: rest)).isSome
      · simp [hdf]
      · simp [hdf]
    · intro w hdfne hlook
      have hdf : env.defaultFolderVar.getD "" ≠ "" ∧
          (lookupA (env.defaultFolderVar.getD "") ((a, v) :: rest)).isSome :=
        ⟨hdfne, by rw [hlook]; rfl⟩
      constructor
      · show (normalizeFolders (parsedFoldersOf env) (env.folderIdVar.getD "")
          (env.defaultFolderVar.getD "")).2.1 = w
        rw [hfold, hnf, if_pos hdf, hlook]
        rfl
      · show (normalizeFolders (parsedFoldersOf env) (env.folderIdVar.getD "")
          (env.defaultFolderVar.getD "")).2.2 = env.defaultFolderVar.getD ""
        rw [hfold, hnf, if_pos hdf]
    · intro hmiss
      have hdf : ¬(env.defaultFolderVar.getD "" ≠ "" ∧
          (lookupA (env.defaultFolderVar.getD "") ((a, v) :: rest)).isSome) := by
        rcases hmiss with hdf0 | hnone
        · exact fun h => h.1 hdf0
        · exact fun h => by rw [hnone] at h; exact absurd h.2 (by simp)
      constructor
      · show (normalizeFolders (parsedFoldersOf env) (env.folderIdVar.getD "")
          (env.defaultFolderVar.getD "")).2.1 = v
        rw [hfold, hnf, if_neg hdf]
      · show (normalizeFolders (parsedFoldersOf env) (env.folderIdVar.getD "")
          (env.defaultFolderVar.getD "")).2.2 =
          (if env.defaultFolderVar.getD "" = "" then a
           else env.defaultFolderVar.getD "")
        rw [hfold, hnf, if_neg hdf]
  · exact ⟨⟨"cs.json", "/home/u/.mcp_google_spreadsheet.json", "1",
      [("a", "1"), ("b", "2")], "a"⟩, rfl, rfl, rfl⟩

/-- C5 witness: a new-scheme environment with a default alias present
in the mapping resolves the legacy id through that alias. -/
theorem c5_witness :
    ∃ cfg, Config.from_env ⟨some "cs", none, some "x:9,y:8", some "y", none⟩
        "/h" = .ok cfg ∧ cfg.folder_id = "8" ∧ cfg.default_folder = "y" := by
  obtain ⟨cfg, hok, _, hsome, _⟩ :=
    c5_new_scheme_backfill.1 ⟨some "cs", none, some "x:9,y:8", some "y", none⟩
      "/h" "x" "9" [("y", "8")] rfl rfl rfl
  obtain ⟨h1, h2⟩ := hsome "8" (by decide) rfl
  exact ⟨cfg, hok, h1, h2⟩

/-- C6: parsing the multi-folder variable — the concrete instance
`a:1,bad,c:3` yields exactly `{a: 1, c: 3}`; an entry without a colon
never changes the mapping (dropped silently, no error is possible);
assignment semantics let a later duplicate alias overwrite an earlier
one, as the concrete instance `a:1,a:2` also shows. -/
theorem c6_folder_parsing :
    parseFolders "a:1,bad,c:3" = [("a", "1"), ("c", "3")] ∧
    (∀ (acc : List (String × String)) (item : List Char),
      ':' ∉ item → foldersStep acc item = acc) ∧
    (∀ (m : List (String × String)) (k v : String),
      lookupA k (insertAList m k v) = some v) ∧
    parseFolders "a:1,a:2" = [("a", "2")] := by
  refine ⟨rfl, ?_, lookupA_insert_self, rfl⟩
  intro acc item h
  simp only [foldersStep]
  rw [splitFirst_eq_none (fun hm => h (mem_trimChars hm))]

/-- C6 witness: instantiating the no-colon drop and the duplicate
overwrite at concrete inputs. -/
theorem c6_witness :
    foldersStep [("a", "1")] "bad".toList = [("a", "1")] ∧
    lookupA "k" (insertAList [("k", "old")] "k" "new") = some "new" :=
  ⟨c6_folder_parsing.2.1 [("a", "1")] "bad".toList (by decide),
   c6_folder_parsing.2.2.1 [("k", "old")] "k" "new"⟩

/-- C8 counterexample: the claim asserts that a slide-content string
that parses as JSON has its parsed value passed to the delegate. For
the input `1` the parse succeeds (yielding the int 1), but the
unconditional `content.replace` on line 407 of `src/main.py` then
raises AttributeError on the non-string value: the tool returns a
failure envelope and the delegate never receives any content — even
when the delegate would have reported success. -/
theorem c8_counterexample :
    jsonLoads (stripBackticks "1") = some (.vint 1) ∧
    deliveredContent "1" = none ∧
    add_slide_to_presentation "T" "1" (.ok (.vdict [("success", .vbool true)])) =
      mkFailEnv ("Error: " ++ attrNoReplace "int") :=
  ⟨rfl, rfl, rfl⟩

/-- C8 amended: after backtick stripping, a string that parses as JSON
to a STRING value is delivered to the delegate with its two-character
backslash-n sequences converted to newlines; a parse yielding any
non-string value makes the tool return a failure envelope without
invoking the delegate (AttributeError on `.replace`); a failed parse
delivers the stripped literal text with backslash-n sequences
converted. -/
theorem c8_amended_transform (c : String) :
    (∀ s, jsonLoads (stripBackticks c) = some (.vstr s) →
      deliveredContent c = some (convertEscapedNewlines s)) ∧
    (∀ v, jsonLoads (stripBackticks c) = some v → (∀ s, v ≠ .vstr s) →
      deliveredContent c = none ∧
      ∀ t o, add_slide_to_presentation t c o =
        mkFailEnv ("Error: " ++ attrNoReplace (pyTypeName v))) ∧
    (jsonLoads (stripBackticks c) = none →
      deliveredContent c = some (convertEscapedNewlines (stripBackticks c))) := by
  refine ⟨?_, ?_, ?_⟩
  · intro s h
    simp only [deliveredContent, shapeContent]
    rw [h]
  · intro v h hnstr
    have hshape : shapeContent c = .error (attrNoReplace (pyTypeName v)) := by
      simp only [shapeContent]
      rw [h]
      cases v with
      | vstr s => exact absurd rfl (hnstr s)
      | vint n => rfl
      | vfloat l => rfl
      | vbool b => rfl
      | vnull => rfl
      | vlist xs => rfl
      | vdict xs => rfl
    constructor
    · simp only [deliveredContent]
      rw [hshape]
    · intro t o
      simp only [add_slide_to_presentation]
      rw [hshape]
  · intro h
    simp only [deliveredContent, shapeContent]
    rw [h]

/-- C8 witness: the three amended branches at concrete inputs — a JSON
string, a JSON array, and plain prose. -/
theorem c8_witness :
    deliveredContent "\"ab\"" = some (convertEscapedNewlines "ab") ∧
    deliveredContent "[1]" = none ∧
    deliveredContent "plain text" =
      some (convertEscapedNewlines (stripBackticks "plain text")) :=
  ⟨(c8_amended_transform "\"ab\"").1 "ab" rfl,
   ((c8_amended_transform "[1]").2.1 (.vlist [.vint 1]) rfl
     (fun _ h => PyVal.noConfusion h)).1,
   (c8_amended_transform "plain text").2.2 rfl⟩

/-- C9: the slide-content transform is the identity, and hence
idempotent, on plain text: any string with no backtick, no
two-character backslash-n sequence, and no JSON reading passes through
unchanged, and running the transform on its own output changes
nothing. -/
theorem c9_transform_identity (x : String)
    (hb : backtick ∉ x.toList)
    (he : hasEscN x.toList = false)
    (hj : jsonLoads x = none) :
    shapeContent x = .ok x ∧
    (shapeContent x).bind (fun y => shapeContent y) = shapeContent x := by
  have hsb := stripBackticks_eq_self hb
  have hok : shapeContent x = .ok x := by
    simp only [shapeContent, hsb, hj]
    rw [convertEscapedNewlines_eq_self he]
  refine ⟨hok, ?_⟩
  rw [hok]
  exact hok

/-- C9 witness: ordinary prose is untouched by the transform. -/
theorem c9_witness : shapeContent "hello world" = .ok "hello world" :=
  (c9_transform_identity "hello world" (by decide) rfl rfl).1
